import Mathlib

/-!
Verification of the CommunityWatch issue-reporting application.

This development shallowly embeds the core logic of the repository
(`app/routes.py`, `app/ai_services.py`, `app/models.py`, present in two
iterations "Version 1" and "Version 2") and proves properties of it:

* the geo-bounded candidate filter (`Issue.latitude.between(lat - radius,
  lat + radius)` / same for longitude) used by `search` and
  `check_duplicates`;
* the cosine-similarity ranking pipeline of `search` (filter candidates
  that carry an embedding, keep scores strictly above 0.6, sort
  descending, map ids back to issues);
* the upvote toggle (`upvote`), the status update (`update_status`) with
  its reputation side effect, and the duplicate detector
  (`find_duplicate_issue` / `check_duplicates`).

Modelling conventions. Python numbers (floats for coordinates and
embedding components, ints for counters) are modelled as `ℚ` and `Int`;
nullable database columns are `Option`; the database session is an
explicit `AppState` record of lists of rows; external capabilities
(the generative-model call and the JSON parser applied to its response)
are injected function parameters, exactly as the spec treats them.
Python's `x or 0` idiom on a nullable integer column is `orZero`.
-/

namespace CommunityWatch

/-- One row of the `user` table (`models.py`).  `reputation_points` is a
nullable integer column, so it is modelled as `Option Int`. -/
structure User where
  id : Nat
  reputation_points : Option Int
  is_moderator : Bool
deriving Repr, DecidableEq

/-- One row of the `issue` table (`models.py`).  `upvote_count` is a
nullable integer column; `embedding` is a nullable pickled list of floats
(modelled as `Option (List ℚ)`). -/
structure Issue where
  id : Nat
  category : String
  description : String
  latitude : ℚ
  longitude : ℚ
  status : String
  upvote_count : Option Int
  embedding : Option (List ℚ)
  reporter_id : Nat
deriving Repr, DecidableEq

/-- One row of the `upvote` table (`models.py`): who voted on which issue. -/
structure UpvoteRec where
  voter_id : Nat
  issue_id : Nat
deriving Repr, DecidableEq

/-- The persistent store visible to the request handlers: the three tables
the verified routes touch.  (Comments and notifications are not modelled:
no claim concerns them.) -/
structure AppState where
  users : List User
  issues : List Issue
  upvotes : List UpvoteRec
deriving Repr, DecidableEq

/-- Python's `x or 0` applied to a nullable integer column: `None` reads
as `0`, any integer reads as itself (`0 or 0` is `0`, so `getD` agrees
with the Python idiom on every integer). -/
def orZero (x : Option Int) : Int := x.getD 0

/-- The geo-bounded candidate filter.  Embeds the query fragment
`Issue.latitude.between(lat - radius, lat + radius),
Issue.longitude.between(lng - radius, lng + radius)` used by `search`
(routes.py, radius 0.05) and `check_duplicates` (routes.py, radius 0.001)
in both versions; SQL `BETWEEN` is inclusive on both endpoints. -/
def geoFilter (lat lng radius : ℚ) (issues : List Issue) : List Issue :=
  issues.filter (fun i =>
    decide (lat - radius ≤ i.latitude) && decide (i.latitude ≤ lat + radius) &&
    decide (lng - radius ≤ i.longitude) && decide (i.longitude ≤ lng + radius))

/-- Python truthiness of the nullable `issue.embedding` column, as tested
by `if issue.embedding` in `search` (both versions): `None` and the empty
list are falsy, any non-empty list is truthy. -/
def embTruthy : Option (List ℚ) → Bool
  | none => false
  | some v => !v.isEmpty

/-- The fixed similarity threshold `0.6` of `search` (both versions). -/
def threshold : ℚ := 6 / 10

/-- The `similarities` dictionary of `search`: one `(issue.id, score)`
pair per candidate whose `embedding` is truthy, where `sim` is the
injected scoring function (in the source, cosine similarity of the
candidate's embedding against the query embedding). -/
def simPairs (sim : List ℚ → ℚ) (issues : List Issue) : List (Nat × ℚ) :=
  (issues.filter (fun i => embTruthy i.embedding)).map
    (fun i => (i.id, sim (i.embedding.getD [])))

/-- The `relevant_ids` dictionary of `search`: pairs whose score is
strictly greater than the fixed threshold `0.6`. -/
def relevantPairs (sim : List ℚ → ℚ) (issues : List Issue) : List (Nat × ℚ) :=
  (simPairs sim issues).filter (fun p => decide (threshold < p.2))

/-- Insert a pair into a list that is sorted descending by score, keeping
it sorted; equal scores are placed after existing entries, matching the
stability of Python's `sorted`. -/
def descInsert (p : Nat × ℚ) : List (Nat × ℚ) → List (Nat × ℚ)
  | [] => [p]
  | q :: qs => if q.2 ≤ p.2 then p :: q :: qs else q :: descInsert p qs

/-- Stable sort in descending score order: the
`sorted(relevant_ids, key=relevant_ids.get, reverse=True)` step of
`search`. -/
def sortDesc : List (Nat × ℚ) → List (Nat × ℚ)
  | [] => []
  | p :: ps => descInsert p (sortDesc ps)

/-- The similarity-ranking pipeline of `search` (both versions): build
the score dictionary over candidates with a truthy embedding, keep
scores `> 0.6`, sort the ids descending by score, and map ids back to
issues through `issue_map` (the `if sid in issue_map` guard of Version 2
is the `find?` returning `some`). -/
def searchRank (sim : List ℚ → ℚ) (issues : List Issue) : List Issue :=
  ((sortDesc (relevantPairs sim issues)).map Prod.fst).filterMap
    (fun sid => issues.find? (fun i => i.id == sid))

/-- ORM write-back of a mutated row: replace every issue row carrying the
given primary key by its updated version (primary keys are unique, so at
most one row is affected in any reachable state). -/
def updIssue (issues : List Issue) (iid : Nat) (f : Issue → Issue) : List Issue :=
  issues.map (fun i => if i.id == iid then f i else i)

/-- ORM write-back of a mutated user row. -/
def updUser (users : List User) (uid : Nat) (f : User → User) : List User :=
  users.map (fun u => if u.id == uid then f u else u)

/-- Deletion of the row fetched by
`current_user.upvotes.filter_by(issue_id=issue_id).first()` followed by
`db.session.delete`: the first stored upvote of this voter on this issue
is removed. -/
def removeFirstUpvote (recs : List UpvoteRec) (v iid : Nat) : List UpvoteRec :=
  match recs with
  | [] => []
  | r :: rs =>
    if r.voter_id == v && r.issue_id == iid then rs
    else r :: removeFirstUpvote rs v iid

/-- The upvote toggle (`upvote`, routes.py, both versions).  The handler
fetches the issue (404 leaves the store unchanged), normalises the
nullable `upvote_count` and reporter `reputation_points` columns with
`or 0`, then either deletes the caller's existing upvote row
(decrementing the count and the reporter's reputation by 1 and 2) or
inserts a new upvote row (incrementing them by 1 and 2). -/
def upvote (voterId issueId : Nat) (s : AppState) : AppState :=
  match s.issues.find? (fun i => i.id == issueId) with
  | none => s
  | some issue =>
    let cnt : Int := orZero issue.upvote_count
    let hasVote := s.upvotes.any
      (fun uv => uv.voter_id == voterId && uv.issue_id == issueId)
    if hasVote then
      { users := updUser s.users issue.reporter_id
          (fun u => { u with reputation_points := some (orZero u.reputation_points - 2) }),
        issues := updIssue s.issues issueId
          (fun i => { i with upvote_count := some (cnt - 1) }),
        upvotes := removeFirstUpvote s.upvotes voterId issueId }
    else
      { users := updUser s.users issue.reporter_id
          (fun u => { u with reputation_points := some (orZero u.reputation_points + 2) }),
        issues := updIssue s.issues issueId
          (fun i => { i with upvote_count := some (cnt + 1) }),
        upvotes := s.upvotes ++ [UpvoteRec.mk voterId issueId] }

/-- The set `{'Reported', 'In Progress', 'Resolved'}` accepted by
`update_status`. -/
def validStatuses : List String := ["Reported", "In Progress", "Resolved"]

/-- The status update (`update_status`, routes.py Version 2).  A
non-moderator caller, a missing issue or an invalid status leave the
store unchanged (the handler only flashes a message); otherwise the
status is written and, when the new status is `Resolved`, the reporter's
reputation becomes `(reputation_points or 0) + 20`.  The notification
fan-out touches only the notification table and is elided. -/
def update_status (actorId issueId : Nat) (newStatus : String) (s : AppState) : AppState :=
  match s.users.find? (fun u => u.id == actorId) with
  | none => s
  | some actor =>
    if actor.is_moderator = false then s
    else
      match s.issues.find? (fun i => i.id == issueId) with
      | none => s
      | some issue =>
        if (validStatuses.contains newStatus) = false then s
        else
          let newIssues := updIssue s.issues issueId (fun i => { i with status := newStatus })
          if newStatus == "Resolved" then
            { s with
              issues := newIssues
              users := updUser s.users issue.reporter_id
                (fun u => { u with reputation_points := some (orZero u.reputation_points + 20) }) }
          else { s with issues := newIssues }

/-- The status update of Version 1 (routes.py Version 1).  Identical to
Version 2 except for the reputation side effect, which is guarded by
`if new_status == 'Resolved' and issue.reporter.reputation_points is not
None`: a NULL reputation is left NULL instead of being treated as 0. -/
def update_status_v1 (actorId issueId : Nat) (newStatus : String) (s : AppState) : AppState :=
  match s.users.find? (fun u => u.id == actorId) with
  | none => s
  | some actor =>
    if actor.is_moderator = false then s
    else
      match s.issues.find? (fun i => i.id == issueId) with
      | none => s
      | some issue =>
        if (validStatuses.contains newStatus) = false then s
        else
          let newIssues := updIssue s.issues issueId (fun i => { i with status := newStatus })
          if newStatus == "Resolved" then
            { s with
              issues := newIssues
              users := updUser s.users issue.reporter_id
                (fun u => { u with reputation_points :=
                  match u.reputation_points with
                  | none => none
                  | some r => some (r + 20) }) }
          else { s with issues := newIssues }

/-- The `upvote_count` column of the issue row with the given id, or
`none` when no such row exists. -/
def issueCount (s : AppState) (iid : Nat) : Option (Option Int) :=
  (s.issues.find? (fun i => i.id == iid)).map Issue.upvote_count

/-- The `reputation_points` column of the user row with the given id, or
`none` when no such row exists. -/
def userRep (s : AppState) (uid : Nat) : Option (Option Int) :=
  (s.users.find? (fun u => u.id == uid)).map User.reputation_points

/-- Number of stored upvote rows for a given issue id. -/
def voteRecCount (recs : List UpvoteRec) (iid : Nat) : Nat :=
  (recs.filter (fun r => r.issue_id == iid)).length

/-- The vote-count consistency invariant: each issue's `upvote_count`
column holds exactly the number of stored upvote rows for it. -/
def countInv (s : AppState) : Prop :=
  ∀ i ∈ s.issues, i.upvote_count = some (voteRecCount s.upvotes i.id : Int)

/-- Issue.generate_and_set_embedding (models.py Version 2): the method
body is `pass` — a no-op that leaves the issue unchanged ("Currently
disabled due to performance concerns"). -/
def Issue.generate_and_set_embedding (i : Issue) : Issue := i

/-- The Issue row constructed by `report_issue` (routes.py Version 2):
category, description, coordinates and reporter come from the request;
the column defaults give status `Reported` and `upvote_count` 0; the
`embedding` column is never assigned, so it is NULL.  (Photo/geojson
handling and the +5 reporter reputation bump touch no claim about this
row.) -/
def report_issue_row (id : Nat) (category description : String)
    (lat lng : ℚ) (reporterId : Nat) : Issue :=
  { id := id, category := category, description := description,
    latitude := lat, longitude := lng, status := "Reported",
    upvote_count := some 0, embedding := none, reporter_id := reporterId }

/-- One entry of the `existing_issues_data` list that `check_duplicates`
hands to the duplicate detector: `{'id': ..., 'title': issue.category,
'description': ...}`. -/
structure ExistingIssue where
  id : Nat
  title : String
  description : String
deriving Repr, DecidableEq

/-- The structured result of the duplicate detector:
`{'is_duplicate': bool, 'duplicate_id'?: ID}`. -/
structure DupResult where
  is_duplicate : Bool
  duplicate_id : Option Nat
deriving Repr, DecidableEq

/-- The `{'is_duplicate': False}` result. -/
def notDuplicate : DupResult := DupResult.mk false none

/-- The cleanup `response.text.strip().replace('```json', '').replace('```', '')`
applied to the model's response before JSON parsing (both versions). -/
def cleanResponse (s : String) : String :=
  ((s.trim).replace "```json" "").replace "```" ""

/-- find_duplicate_issue (`ai_services.py`, both versions).  An empty
candidate list short-circuits to `{'is_duplicate': False}` before the
`try` block.  The external generative-model call and Python's
`json.loads` are injected capabilities: `callModel` is given the new
description and the candidate list (the prompt built from them is opaque
text to the external service) and returns response text or raises
(`Except.error`); `parseJson` returns `none` when `json.loads` would
raise.  Either failure is caught by the `except` clause, which returns
`{'is_duplicate': False}` — the function is total and never propagates
an error to its caller. -/
def find_duplicate_issue
    (callModel : String → List ExistingIssue → Except Unit String)
    (parseJson : String → Option DupResult)
    (new_description : String) (existing_issues : List ExistingIssue) : DupResult :=
  if existing_issues.isEmpty then notDuplicate
  else
    match callModel new_description existing_issues with
    | Except.error _ => notDuplicate
    | Except.ok text =>
      match parseJson (cleanResponse text) with
      | none => notDuplicate
      | some r => r

/-- The `check_duplicates` route (routes.py Version 2): geo-filter the
stored issues around the submitted coordinates with radius 0.001; with
no nearby issue answer `{'is_duplicate': False}` at once; otherwise
delegate to `find_duplicate_issue` on `(id, title, description)` rows
and, on a positive answer whose `duplicate_id` resolves, attach the
duplicate's category as `duplicate_title` (the second component).
Coordinate parsing of the request body is elided (valid floats assumed,
as the claims do). -/
def check_duplicates
    (callModel : String → List ExistingIssue → Except Unit String)
    (parseJson : String → Option DupResult)
    (lat lng : ℚ) (description : String) (s : AppState) :
    DupResult × Option String :=
  let nearby := geoFilter lat lng (1/1000) s.issues
  if nearby.isEmpty then (notDuplicate, none)
  else
    let data := nearby.map (fun i => ExistingIssue.mk i.id i.category i.description)
    let result := find_duplicate_issue callModel parseJson description data
    if result.is_duplicate then
      match result.duplicate_id with
      | some did =>
        match s.issues.find? (fun i => i.id == did) with
        | some dup => (result, some dup.category)
        | none => (result, none)
      | none => (result, none)
    else (result, none)

/-- `np.dot(v1, v2)` on equal-length one-dimensional vectors: the sum of
componentwise products. -/
def dotp (v1 v2 : List ℚ) : ℚ := (List.zipWith (fun a b => a * b) v1 v2).sum

/-- Squared Euclidean norm, `np.linalg.norm(v) ** 2`: the divisor of the
`cosine_similarity` helper in `search` (both versions) is
`Real.sqrt (norm2 v1) * Real.sqrt (norm2 v2)`. -/
def norm2 (v : List ℚ) : ℚ := dotp v v

/-- Concrete store exercising the upvote round trip: two users, one issue
reported by user 1 with 3 counted votes, no stored upvote rows. -/
def sampleVoteState : AppState :=
  AppState.mk [User.mk 1 (some 5) false, User.mk 2 (some 0) false]
    [Issue.mk 1 "Pothole" "a pothole" 10 20 "Reported" (some 3) none 1] []

/-- Concrete store whose single issue has a NULL `upvote_count`. -/
def sampleNullCountState : AppState :=
  AppState.mk [User.mk 1 (some 5) false, User.mk 2 (some 0) false]
    [Issue.mk 1 "Pothole" "a pothole" 10 20 "Reported" none none 1] []

/-- Concrete store satisfying the vote-count invariant: the single issue
counts 1 vote and one matching upvote row is stored. -/
def sampleInvState : AppState :=
  AppState.mk [User.mk 1 (some 5) false, User.mk 2 (some 0) false]
    [Issue.mk 1 "Pothole" "a pothole" 10 20 "Reported" (some 1) none 1]
    [UpvoteRec.mk 1 1]

/-- Concrete store for the status-update scenario: a moderator (user 1)
and an issue reported by user 2 whose reputation is 0. -/
def sampleModState : AppState :=
  AppState.mk [User.mk 1 (some 5) true, User.mk 2 (some 0) false]
    [Issue.mk 1 "Pothole" "a pothole" 10 20 "Reported" (some 0) none 2] []

/-- Concrete store for the Version 1 status-update counterexample: a
moderator (user 1) and an issue whose reporter (user 2) has a NULL
reputation. -/
def sampleModNullRepState : AppState :=
  AppState.mk [User.mk 1 (some 5) true, User.mk 2 none false]
    [Issue.mk 1 "Pothole" "a pothole" 10 20 "Reported" (some 0) none 2] []

end CommunityWatch

namespace CommunityWatch

theorem descInsert_perm (p : Nat × ℚ) (l : List (Nat × ℚ)) :
    (descInsert p l).Perm (p :: l) := by
  induction l with
  | nil => exact List.Perm.refl _
  | cons q qs ih =>
    rw [descInsert]
    split
    · exact List.Perm.refl _
    · exact (ih.cons q).trans (List.Perm.swap p q qs)

theorem sortDesc_perm (l : List (Nat × ℚ)) : (sortDesc l).Perm l := by
  induction l with
  | nil => exact List.Perm.refl _
  | cons p ps ih => exact (descInsert_perm p (sortDesc ps)).trans (ih.cons p)

theorem descInsert_pairwise (p : Nat × ℚ) (l : List (Nat × ℚ))
    (h : l.Pairwise (fun a b => b.2 ≤ a.2)) :
    (descInsert p l).Pairwise (fun a b => b.2 ≤ a.2) := by
  induction l with
  | nil => simp [descInsert]
  | cons q qs ih =>
    rw [descInsert]
    rw [List.pairwise_cons] at h
    split
    case isTrue hq =>
      refine List.pairwise_cons.mpr ⟨?_, List.pairwise_cons.mpr h⟩
      intro x hx
      rcases List.mem_cons.mp hx with hx | hx
      · rw [hx]; exact hq
      · exact le_trans (h.1 x hx) hq
    case isFalse hq =>
      refine List.pairwise_cons.mpr ⟨?_, ih h.2⟩
      intro x hx
      have hx' := (descInsert_perm p qs).mem_iff.mp hx
      rcases List.mem_cons.mp hx' with hx'' | hx''
      · rw [hx'']
        exact le_of_not_le hq
      · exact h.1 x hx''

theorem sortDesc_pairwise (l : List (Nat × ℚ)) :
    (sortDesc l).Pairwise (fun a b => b.2 ≤ a.2) := by
  induction l with
  | nil => exact List.Pairwise.nil
  | cons p ps ih => exact descInsert_pairwise p (sortDesc ps) ih

theorem mem_simPairs (sim : List ℚ → ℚ) (issues : List Issue) (p : Nat × ℚ) :
    p ∈ simPairs sim issues ↔
      ∃ j ∈ issues, embTruthy j.embedding = true ∧
        p = (j.id, sim (j.embedding.getD [])) := by
  simp only [simPairs, List.mem_map, List.mem_filter]
  constructor
  · rintro ⟨j, ⟨hj, he⟩, hp⟩
    exact ⟨j, hj, he, hp.symm⟩
  · rintro ⟨j, hj, he, hp⟩
    exact ⟨j, ⟨hj, he⟩, hp.symm⟩

theorem searchRank_elem (sim : List ℚ → ℚ) (issues : List Issue)
    (hnd : (issues.map Issue.id).Nodup) (p : Nat × ℚ) (i : Issue)
    (hp : p ∈ relevantPairs sim issues)
    (hf : issues.find? (fun j => j.id == p.1) = some i) :
    embTruthy i.embedding = true ∧ p.2 = sim (i.embedding.getD []) := by
  have hrel := List.mem_filter.mp hp
  obtain ⟨j, hj, hje, hjp⟩ := (mem_simPairs sim issues p).mp hrel.1
  have hi : i ∈ issues := List.mem_of_find?_eq_some hf
  have hid : (i.id == p.1) = true := by simpa using List.find?_some hf
  have hpj : p.1 = j.id := by rw [hjp]
  have hij : j = i := by
    refine List.inj_on_of_nodup_map hnd hj hi ?_
    have h1 : i.id = p.1 := by simpa using hid
    rw [h1, hpj]
  subst hij
  exact ⟨hje, by rw [hjp]⟩

end CommunityWatch

namespace CommunityWatch

/-- C1: the geo-bounded candidate filter is an axis-aligned,
boundary-inclusive box: for every center `(lat, lng)` and radius `r`, an
issue is in the candidate set iff its latitude lies in `[lat-r, lat+r]`
and its longitude lies in `[lng-r, lng+r]`, each axis independently;
boundary coordinates are included and no distance metric is applied. -/
theorem geoFilter_mem_iff (lat lng r : ℚ) (issues : List Issue) (i : Issue) :
    i ∈ geoFilter lat lng r issues ↔
      i ∈ issues ∧
      (lat - r ≤ i.latitude ∧ i.latitude ≤ lat + r) ∧
      (lng - r ≤ i.longitude ∧ i.longitude ≤ lng + r) := by
  simp [geoFilter, List.mem_filter, and_assoc]

/-- C2: for every candidate set (with the distinct ids a database primary
key guarantees) and every scoring function — in the source, cosine
similarity against the query embedding — the ranked list returned by
`search` contains no issue whose score is ≤ 0.6: every member's score is
strictly greater than the fixed threshold 0.6. -/
theorem searchRank_no_low_similarity (sim : List ℚ → ℚ) (issues : List Issue)
    (i : Issue) (hnd : (issues.map Issue.id).Nodup)
    (hm : i ∈ searchRank sim issues) :
    threshold < sim (i.embedding.getD []) ∧
      ¬ sim (i.embedding.getD []) ≤ threshold := by
  rw [searchRank, List.filterMap_map] at hm
  obtain ⟨pr, hpr, hfind⟩ := List.mem_filterMap.mp hm
  have hrel : pr ∈ relevantPairs sim issues :=
    (sortDesc_perm (relevantPairs sim issues)).mem_iff.mp hpr
  have hfind' : issues.find? (fun j => j.id == pr.1) = some i := hfind
  have helem := searchRank_elem sim issues hnd pr i hrel hfind'
  have hthr : threshold < pr.2 := by
    have := (List.mem_filter.mp hrel).2
    simpa using this
  rw [helem.2] at hthr
  exact ⟨hthr, not_le.mpr hthr⟩

/-- C2 witness: a concrete run. One candidate with embedding `[1]`,
scored by its head; it appears in the output and its score `1` is above
the threshold. -/
theorem searchRank_no_low_similarity_witness :
    threshold < (fun v : List ℚ => v.headD 0)
        ((Issue.mk 1 "Pothole" "a pothole" 10 20 "Reported" (some 0)
          (some [1]) 1).embedding.getD []) ∧
      ¬ (fun v : List ℚ => v.headD 0)
          ((Issue.mk 1 "Pothole" "a pothole" 10 20 "Reported" (some 0)
            (some [1]) 1).embedding.getD []) ≤ threshold :=
  searchRank_no_low_similarity (fun v => v.headD 0)
    [Issue.mk 1 "Pothole" "a pothole" 10 20 "Reported" (some 0) (some [1]) 1]
    (Issue.mk 1 "Pothole" "a pothole" 10 20 "Reported" (some 0) (some [1]) 1)
    (by decide)
    (by norm_num [searchRank, relevantPairs, simPairs, sortDesc, descInsert,
      embTruthy, threshold, List.find?, List.filterMap_cons, List.filterMap_nil])

/-- C3: for every candidate set with distinct ids and every scoring
function, the ranked list returned by `search` is sorted in descending
score order: for any two results in output order, the earlier one's
score is ≥ the later one's (ties in arbitrary order, which this
non-strict statement leaves unspecified). -/
theorem searchRank_sorted_desc (sim : List ℚ → ℚ) (issues : List Issue)
    (hnd : (issues.map Issue.id).Nodup) :
    (searchRank sim issues).Pairwise
      (fun a b => sim (b.embedding.getD []) ≤ sim (a.embedding.getD [])) := by
  rw [searchRank, List.filterMap_map]
  have hpw := List.Pairwise.and_mem.mp (sortDesc_pairwise (relevantPairs sim issues))
  refine List.Pairwise.filterMap _ ?_ hpw
  intro p q hpq a ha b hb
  obtain ⟨hp, hq, hle⟩ := hpq
  have hpr : p ∈ relevantPairs sim issues :=
    (sortDesc_perm (relevantPairs sim issues)).mem_iff.mp hp
  have hqr : q ∈ relevantPairs sim issues :=
    (sortDesc_perm (relevantPairs sim issues)).mem_iff.mp hq
  have hfa : issues.find? (fun j => j.id == p.1) = some a := ha
  have hfb : issues.find? (fun j => j.id == q.1) = some b := hb
  have hea := searchRank_elem sim issues hnd p a hpr hfa
  have heb := searchRank_elem sim issues hnd q b hqr hfb
  rw [← hea.2, ← heb.2]
  exact hle

/-- C3 witness: a concrete run with two candidates scored by the head of
their embedding; the output is sorted with the higher score first. -/
theorem searchRank_sorted_desc_witness :
    (searchRank (fun v : List ℚ => v.headD 0)
        [Issue.mk 1 "Pothole" "a" 10 20 "Reported" (some 0) (some [7/10]) 1,
         Issue.mk 2 "Graffiti" "b" 10 20 "Reported" (some 0) (some [9/10]) 1]).Pairwise
      (fun a b => (fun v : List ℚ => v.headD 0) (b.embedding.getD []) ≤
        (fun v : List ℚ => v.headD 0) (a.embedding.getD [])) :=
  searchRank_sorted_desc (fun v => v.headD 0)
    [Issue.mk 1 "Pothole" "a" 10 20 "Reported" (some 0) (some [7/10]) 1,
     Issue.mk 2 "Graffiti" "b" 10 20 "Reported" (some 0) (some [9/10]) 1]
    (by decide)

theorem find?_condMap {α : Type} (key : α → Nat) (l : List α) (k : Nat)
    (f : α → α) (hf : ∀ x, key (f x) = key x) :
    (l.map (fun x => if key x == k then f x else x)).find?
        (fun x => key x == k) =
      (l.find? (fun x => key x == k)).map f := by
  induction l with
  | nil => rfl
  | cons a l ih =>
    simp only [List.map_cons, List.find?]
    by_cases h : (key a == k) = true
    · rw [if_pos h]
      have hfa : (key (f a) == k) = true := by rw [hf a]; exact h
      rw [hfa, h]
      rfl
    · rw [if_neg h]
      have h' : (key a == k) = false := by
        rw [Bool.eq_false_iff]; exact h
      rw [h', ih]

theorem removeFirstUpvote_append (l : List UpvoteRec) (v iid : Nat)
    (h : l.any (fun r => r.voter_id == v && r.issue_id == iid) = false) :
    removeFirstUpvote (l ++ [UpvoteRec.mk v iid]) v iid = l := by
  induction l with
  | nil => simp [removeFirstUpvote]
  | cons a l ih =>
    rw [List.any_cons, Bool.or_eq_false_iff] at h
    rw [List.cons_append, removeFirstUpvote, if_neg]
    · rw [ih h.2]
    · rw [h.1]
      exact Bool.false_ne_true

theorem removeFirstUpvote_any_false (l : List UpvoteRec) (v iid : Nat)
    (h : (l.filter (fun r => r.voter_id == v && r.issue_id == iid)).length ≤ 1) :
    (removeFirstUpvote l v iid).any
      (fun r => r.voter_id == v && r.issue_id == iid) = false := by
  induction l with
  | nil => rfl
  | cons a l ih =>
    rw [removeFirstUpvote]
    by_cases ha : (a.voter_id == v && a.issue_id == iid) = true
    · rw [if_pos ha]
      simp only [List.filter_cons] at h
      rw [if_pos ha, List.length_cons] at h
      have h0 : (l.filter (fun r => r.voter_id == v && r.issue_id == iid)).length = 0 := by
        omega
      have h1 := List.filter_eq_nil_iff.mp (List.length_eq_zero.mp h0)
      rw [List.any_eq_false]
      intro r hr
      intro hcon
      exact h1 r hr hcon
    · rw [if_neg ha, List.any_cons]
      have ha' : (a.voter_id == v && a.issue_id == iid) = false := by
        rw [Bool.eq_false_iff]; exact ha
      simp only [List.filter_cons] at h
      rw [if_neg (by rw [ha']; exact Bool.false_ne_true)] at h
      rw [ha', ih h, Bool.or_self]

theorem voteRecCount_append_same (l : List UpvoteRec) (v iid : Nat) :
    voteRecCount (l ++ [UpvoteRec.mk v iid]) iid = voteRecCount l iid + 1 := by
  rw [voteRecCount, voteRecCount, List.filter_append, List.length_append]
  simp

theorem voteRecCount_append_ne (l : List UpvoteRec) (v iid j : Nat)
    (hj : iid ≠ j) :
    voteRecCount (l ++ [UpvoteRec.mk v iid]) j = voteRecCount l j := by
  rw [voteRecCount, voteRecCount, List.filter_append, List.length_append]
  have : ([UpvoteRec.mk v iid].filter (fun r => r.issue_id == j)) = [] := by
    simp [hj]
  rw [this]
  simp

theorem voteRecCount_removeFirst (l : List UpvoteRec) (v iid : Nat)
    (h : l.any (fun r => r.voter_id == v && r.issue_id == iid) = true) :
    voteRecCount (removeFirstUpvote l v iid) iid + 1 = voteRecCount l iid := by
  induction l with
  | nil => exact absurd h (by simp)
  | cons a l ih =>
    rw [removeFirstUpvote]
    by_cases ha : (a.voter_id == v && a.issue_id == iid) = true
    · rw [if_pos ha]
      have haid : (a.issue_id == iid) = true := by
        simp only [Bool.and_eq_true] at ha
        exact ha.2
      rw [voteRecCount, voteRecCount]
      simp only [List.filter_cons]
      rw [if_pos haid, List.length_cons]
    · rw [if_neg ha]
      rw [List.any_cons] at h
      have ha' : (a.voter_id == v && a.issue_id == iid) = false := by
        rw [Bool.eq_false_iff]; exact ha
      rw [ha', Bool.false_or] at h
      have hih := ih h
      rw [voteRecCount, voteRecCount] at hih
      rw [voteRecCount, voteRecCount]
      simp only [List.filter_cons]
      by_cases haid : (a.issue_id == iid) = true
      · rw [if_pos haid, if_pos haid, List.length_cons, List.length_cons]
        omega
      · rw [if_neg haid, if_neg haid]
        exact hih

theorem voteRecCount_removeFirst_ne (l : List UpvoteRec) (v iid j : Nat)
    (hj : iid ≠ j) :
    voteRecCount (removeFirstUpvote l v iid) j = voteRecCount l j := by
  induction l with
  | nil => rfl
  | cons a l ih =>
    rw [removeFirstUpvote]
    by_cases ha : (a.voter_id == v && a.issue_id == iid) = true
    · rw [if_pos ha]
      have haid : (a.issue_id == iid) = true := by
        simp only [Bool.and_eq_true] at ha
        exact ha.2
      have haj : ¬ ((a.issue_id == j) = true) := by
        have heq : a.issue_id = iid := by simpa using haid
        simp [heq, hj]
      rw [voteRecCount, voteRecCount]
      simp only [List.filter_cons]
      rw [if_neg haj]
    · rw [if_neg ha]
      have hih := ih
      rw [voteRecCount, voteRecCount] at hih
      rw [voteRecCount, voteRecCount]
      simp only [List.filter_cons]
      by_cases haj : (a.issue_id == j) = true
      · rw [if_pos haj, if_pos haj, List.length_cons, List.length_cons, hih]
      · rw [if_neg haj, if_neg haj]
        exact hih

theorem upvote_found (s : AppState) (v iid : Nat) (issue : Issue)
    (hfind : s.issues.find? (fun i => i.id == iid) = some issue) :
    upvote v iid s =
      if s.upvotes.any (fun uv => uv.voter_id == v && uv.issue_id == iid) then
        { users := updUser s.users issue.reporter_id
            (fun u => { u with reputation_points := some (orZero u.reputation_points - 2) })
          issues := updIssue s.issues iid
            (fun i => { i with upvote_count := some (orZero issue.upvote_count - 1) })
          upvotes := removeFirstUpvote s.upvotes v iid }
      else
        { users := updUser s.users issue.reporter_id
            (fun u => { u with reputation_points := some (orZero u.reputation_points + 2) })
          issues := updIssue s.issues iid
            (fun i => { i with upvote_count := some (orZero issue.upvote_count + 1) })
          upvotes := s.upvotes ++ [UpvoteRec.mk v iid] } := by
  rw [upvote, hfind]

theorem find?_updIssue (issues : List Issue) (iid : Nat) (f : Issue → Issue)
    (hf : ∀ x, (f x).id = x.id) :
    (updIssue issues iid f).find? (fun i => i.id == iid) =
      (issues.find? (fun i => i.id == iid)).map f :=
  find?_condMap Issue.id issues iid f hf

theorem find?_updUser (users : List User) (uid : Nat) (f : User → User)
    (hf : ∀ x, (f x).id = x.id) :
    (updUser users uid f).find? (fun u => u.id == uid) =
      (users.find? (fun u => u.id == uid)).map f :=
  find?_condMap User.id users uid f hf

/-- C4 (amended): the upvote toggle is a round trip on the stored numeric
values.  For every user and every existing issue whose `upvote_count` and
reporter `reputation_points` columns are non-NULL — and in any state with
at most one stored upvote per (voter, issue), which the toggle itself
maintains — invoking `upvote` twice in succession by the same user
restores both the issue's `upvote_count` and the reporter's
`reputation_points` to their values before the first invocation.  (When a
column is NULL the toggle normalises it with `or 0`, so a NULL column
ends at its numeric reading 0 instead of NULL — the counterexample.) -/
theorem upvote_toggle_roundtrip (s : AppState) (v iid : Nat) (issue : Issue)
    (hfind : s.issues.find? (fun i => i.id == iid) = some issue)
    (hcnt : issue.upvote_count ≠ none)
    (hrep : ∀ u ∈ s.users, u.id = issue.reporter_id → u.reputation_points ≠ none)
    (honce : (s.upvotes.filter
        (fun r => r.voter_id == v && r.issue_id == iid)).length ≤ 1) :
    issueCount (upvote v iid (upvote v iid s)) iid = issueCount s iid ∧
    userRep (upvote v iid (upvote v iid s)) issue.reporter_id =
      userRep s issue.reporter_id := by
  obtain ⟨c0, hc0⟩ := Option.ne_none_iff_exists'.mp hcnt
  by_cases hv : s.upvotes.any
      (fun uv => uv.voter_id == v && uv.issue_id == iid) = true
  · rw [upvote_found s v iid issue hfind, if_pos hv]
    rw [upvote_found _ v iid
        { issue with upvote_count := some (orZero issue.upvote_count - 1) } ?fnd,
      if_neg ?neg]
    case fnd =>
      show (updIssue s.issues iid _).find? _ = _
      rw [find?_updIssue _ _ _ ?hfa, hfind]
      case hfa => exact fun x => rfl
      rfl
    case neg =>
      show ¬ ((removeFirstUpvote s.upvotes v iid).any _ = true)
      rw [removeFirstUpvote_any_false s.upvotes v iid honce]
      exact Bool.false_ne_true
    constructor
    · rw [issueCount, issueCount]
      rw [find?_updIssue _ _ _ ?hfb, find?_updIssue _ _ _ ?hfc, hfind]
      case hfb => exact fun x => rfl
      case hfc => exact fun x => rfl
      simp only [Option.map_some']
      rw [hc0]
      simp only [orZero, Option.getD, Option.some.injEq]
      omega
    · rw [userRep, userRep]
      rw [find?_updUser _ _ _ ?hfd, find?_updUser _ _ _ ?hfe]
      case hfd => exact fun x => rfl
      case hfe => exact fun x => rfl
      cases hu : s.users.find? (fun u => u.id == issue.reporter_id) with
      | none => rfl
      | some u =>
        have humem := List.mem_of_find?_eq_some hu
        have huid : u.id = issue.reporter_id := by simpa using List.find?_some hu
        obtain ⟨r0, hr0⟩ := Option.ne_none_iff_exists'.mp (hrep u humem huid)
        simp only [Option.map_some']
        rw [hr0]
        simp only [orZero, Option.getD, Option.some.injEq]
        omega
  · rw [upvote_found s v iid issue hfind, if_neg hv]
    rw [upvote_found _ v iid
        { issue with upvote_count := some (orZero issue.upvote_count + 1) } ?fnd,
      if_pos ?pos]
    case fnd =>
      show (updIssue s.issues iid _).find? _ = _
      rw [find?_updIssue _ _ _ ?hfa, hfind]
      case hfa => exact fun x => rfl
      rfl
    case pos =>
      show (s.upvotes ++ [UpvoteRec.mk v iid]).any _ = true
      rw [List.any_append]
      simp
    constructor
    · rw [issueCount, issueCount]
      rw [find?_updIssue _ _ _ ?hfb, find?_updIssue _ _ _ ?hfc, hfind]
      case hfb => exact fun x => rfl
      case hfc => exact fun x => rfl
      simp only [Option.map_some']
      rw [hc0]
      simp only [orZero, Option.getD, Option.some.injEq]
      omega
    · rw [userRep, userRep]
      rw [find?_updUser _ _ _ ?hfd, find?_updUser _ _ _ ?hfe]
      case hfd => exact fun x => rfl
      case hfe => exact fun x => rfl
      cases hu : s.users.find? (fun u => u.id == issue.reporter_id) with
      | none => rfl
      | some u =>
        have humem := List.mem_of_find?_eq_some hu
        have huid : u.id = issue.reporter_id := by simpa using List.find?_some hu
        obtain ⟨r0, hr0⟩ := Option.ne_none_iff_exists'.mp (hrep u humem huid)
        simp only [Option.map_some']
        rw [hr0]
        simp only [orZero, Option.getD, Option.some.injEq]
        omega

end CommunityWatch

namespace CommunityWatch

/-- C4 witness: on a concrete store (issue with 3 counted votes, reporter
reputation 5) a double toggle by user 2 restores both observables. -/
theorem upvote_toggle_roundtrip_witness :
    issueCount (upvote 2 1 (upvote 2 1 sampleVoteState)) 1 =
      issueCount sampleVoteState 1 ∧
    userRep (upvote 2 1 (upvote 2 1 sampleVoteState))
        (Issue.mk 1 "Pothole" "a pothole" 10 20 "Reported" (some 3) none 1).reporter_id =
      userRep sampleVoteState
        (Issue.mk 1 "Pothole" "a pothole" 10 20 "Reported" (some 3) none 1).reporter_id :=
  upvote_toggle_roundtrip sampleVoteState 2 1
    (Issue.mk 1 "Pothole" "a pothole" 10 20 "Reported" (some 3) none 1)
    rfl (by decide) (by decide) (by decide)

/-- C4 counterexample: on an issue whose stored `upvote_count` is NULL,
the double toggle ends with the column at 0, not at its pre-toggle value
NULL, so the round trip does not restore the field as stated. -/
theorem upvote_toggle_roundtrip_counterexample :
    issueCount sampleNullCountState 1 = some none ∧
    issueCount (upvote 2 1 (upvote 2 1 sampleNullCountState)) 1 = some (some 0) ∧
    issueCount (upvote 2 1 (upvote 2 1 sampleNullCountState)) 1 ≠
      issueCount sampleNullCountState 1 :=
  ⟨rfl, rfl, by decide⟩

/-- C10: the vote-count consistency invariant — every issue's
`upvote_count` column equals the number of stored upvote rows for it —
is preserved by any single `upvote` toggle: the toggle inserts a row
exactly when it increments the count and deletes a row exactly when it
decrements it. -/
theorem upvote_preserves_countInv (s : AppState) (v iid : Nat)
    (hinv : countInv s) : countInv (upvote v iid s) := by
  cases hfind : s.issues.find? (fun i => i.id == iid) with
  | none =>
    have hs : upvote v iid s = s := by rw [upvote, hfind]
    rw [hs]
    exact hinv
  | some issue =>
    have hiid : issue.id = iid := by simpa using List.find?_some hfind
    have himem : issue ∈ s.issues := List.mem_of_find?_eq_some hfind
    have hbase := hinv issue himem
    rw [upvote_found s v iid issue hfind]
    by_cases hv : s.upvotes.any
        (fun uv => uv.voter_id == v && uv.issue_id == iid) = true
    · rw [if_pos hv]
      intro j hj
      have hj2 : j ∈ updIssue s.issues iid
          (fun i => { i with upvote_count := some (orZero issue.upvote_count - 1) }) := hj
      rw [updIssue] at hj2
      obtain ⟨i0, hi0, hji⟩ := List.mem_map.mp hj2
      have hcnt1 := voteRecCount_removeFirst s.upvotes v iid hv
      show j.upvote_count =
        some (voteRecCount (removeFirstUpvote s.upvotes v iid) j.id : Int)
      by_cases hid : (i0.id == iid) = true
      · rw [if_pos hid] at hji
        have hjc : j.upvote_count = some (orZero issue.upvote_count - 1) := by
          rw [← hji]
        have hjid : j.id = iid := by rw [← hji]; simpa using hid
        rw [hjc, hjid]
        have hbase2 : issue.upvote_count = some (voteRecCount s.upvotes iid : Int) := by
          rw [← hiid]; exact hbase
        rw [hbase2]
        simp only [orZero, Option.getD, Option.some.injEq]
        omega
      · rw [if_neg hid] at hji
        have hne : iid ≠ j.id := by
          rw [← hji]
          intro hcon
          exact hid (by simpa using hcon.symm)
        rw [voteRecCount_removeFirst_ne s.upvotes v iid j.id hne, ← hji]
        exact hinv i0 hi0
    · rw [if_neg hv]
      intro j hj
      have hj2 : j ∈ updIssue s.issues iid
          (fun i => { i with upvote_count := some (orZero issue.upvote_count + 1) }) := hj
      rw [updIssue] at hj2
      obtain ⟨i0, hi0, hji⟩ := List.mem_map.mp hj2
      show j.upvote_count =
        some (voteRecCount (s.upvotes ++ [UpvoteRec.mk v iid]) j.id : Int)
      by_cases hid : (i0.id == iid) = true
      · rw [if_pos hid] at hji
        have hjc : j.upvote_count = some (orZero issue.upvote_count + 1) := by
          rw [← hji]
        have hjid : j.id = iid := by rw [← hji]; simpa using hid
        rw [hjc, hjid, voteRecCount_append_same]
        have hbase2 : issue.upvote_count = some (voteRecCount s.upvotes iid : Int) := by
          rw [← hiid]; exact hbase
        rw [hbase2]
        simp only [orZero, Option.getD, Option.some.injEq]
        omega
      · rw [if_neg hid] at hji
        have hne : iid ≠ j.id := by
          rw [← hji]
          intro hcon
          exact hid (by simpa using hcon.symm)
        rw [voteRecCount_append_ne s.upvotes v iid j.id hne, ← hji]
        exact hinv i0 hi0

/-- C10 witness: a concrete store satisfying the invariant still
satisfies it after a toggle by user 2. -/
theorem upvote_preserves_countInv_witness :
    countInv (upvote 2 1 sampleInvState) :=
  upvote_preserves_countInv sampleInvState 2 1
    (by rw [countInv]; decide)

end CommunityWatch

namespace CommunityWatch

theorem update_status_resolved_eq (s : AppState) (actorId issueId : Nat)
    (actor : User) (issue : Issue)
    (hactor : s.users.find? (fun u => u.id == actorId) = some actor)
    (hmod : actor.is_moderator = true)
    (hissue : s.issues.find? (fun i => i.id == issueId) = some issue) :
    update_status actorId issueId "Resolved" s =
      { s with
        issues := updIssue s.issues issueId (fun i => { i with status := "Resolved" })
        users := updUser s.users issue.reporter_id
          (fun u => { u with reputation_points := some (orZero u.reputation_points + 20) }) } := by
  simp [update_status, hactor, hmod, hissue, validStatuses]

theorem update_status_v1_resolved_eq (s : AppState) (actorId issueId : Nat)
    (actor : User) (issue : Issue)
    (hactor : s.users.find? (fun u => u.id == actorId) = some actor)
    (hmod : actor.is_moderator = true)
    (hissue : s.issues.find? (fun i => i.id == issueId) = some issue) :
    update_status_v1 actorId issueId "Resolved" s =
      { s with
        issues := updIssue s.issues issueId (fun i => { i with status := "Resolved" })
        users := updUser s.users issue.reporter_id
          (fun u => { u with reputation_points :=
            match u.reputation_points with
            | none => none
            | some r => some (r + 20) }) } := by
  simp [update_status_v1, hactor, hmod, hissue, validStatuses]

/-- C5 (amended): a moderator status update to `Resolved` maps the
reporter's reputation to `(reputation_points or 0) + 20` in Version 2 —
in particular a reputation of 0, and likewise an unset (NULL) one,
becomes 20 — while in Version 1 the +20 is applied only when the stored
reputation is non-NULL: a numeric reputation `r` becomes `r + 20` (so 0
becomes 20), but an unset reputation stays NULL instead of becoming 20. -/
theorem update_status_resolved_reputation (s : AppState) (actorId issueId : Nat)
    (actor : User) (issue : Issue)
    (hactor : s.users.find? (fun u => u.id == actorId) = some actor)
    (hmod : actor.is_moderator = true)
    (hissue : s.issues.find? (fun i => i.id == issueId) = some issue) :
    userRep (update_status actorId issueId "Resolved" s) issue.reporter_id =
      (userRep s issue.reporter_id).map (fun rep => some (orZero rep + 20)) ∧
    userRep (update_status_v1 actorId issueId "Resolved" s) issue.reporter_id =
      (userRep s issue.reporter_id).map
        (fun rep => rep.map (fun r => r + 20)) := by
  constructor
  · rw [update_status_resolved_eq s actorId issueId actor issue hactor hmod hissue]
    rw [userRep, userRep]
    rw [find?_updUser _ _ _ ?hf1]
    case hf1 => exact fun x => rfl
    cases hu : s.users.find? (fun u => u.id == issue.reporter_id) with
    | none => rfl
    | some u => rfl
  · rw [update_status_v1_resolved_eq s actorId issueId actor issue hactor hmod hissue]
    rw [userRep, userRep]
    rw [find?_updUser _ _ _ ?hf2]
    case hf2 => exact fun x => rfl
    cases hu : s.users.find? (fun u => u.id == issue.reporter_id) with
    | none => rfl
    | some u =>
      simp only [Option.map_some']
      cases u.reputation_points with
      | none => rfl
      | some r => rfl

/-- C5 witness: on a concrete store where moderator user 1 resolves issue
1 whose reporter (user 2) has reputation 0, Version 2 yields reputation
`(0 or 0) + 20 = 20`, and Version 1 yields `0 + 20 = 20`. -/
theorem update_status_resolved_reputation_witness :
    userRep (update_status 1 1 "Resolved" sampleModState)
        (Issue.mk 1 "Pothole" "a pothole" 10 20 "Reported" (some 0) none 2).reporter_id =
      (userRep sampleModState
        (Issue.mk 1 "Pothole" "a pothole" 10 20 "Reported" (some 0) none 2).reporter_id).map
        (fun rep => some (orZero rep + 20)) ∧
    userRep (update_status_v1 1 1 "Resolved" sampleModState)
        (Issue.mk 1 "Pothole" "a pothole" 10 20 "Reported" (some 0) none 2).reporter_id =
      (userRep sampleModState
        (Issue.mk 1 "Pothole" "a pothole" 10 20 "Reported" (some 0) none 2).reporter_id).map
        (fun rep => rep.map (fun r => r + 20)) :=
  update_status_resolved_reputation sampleModState 1 1
    (User.mk 1 (some 5) true)
    (Issue.mk 1 "Pothole" "a pothole" 10 20 "Reported" (some 0) none 2)
    rfl rfl rfl

/-- C5 counterexample: in Version 1, when the reporter's reputation is
unset (NULL) before the transition, a moderator update to `Resolved`
leaves it NULL — it does not become 20 as the claim states. -/
theorem update_status_resolved_reputation_counterexample :
    userRep sampleModNullRepState 2 = some none ∧
    userRep (update_status_v1 1 1 "Resolved" sampleModNullRepState) 2 = some none ∧
    userRep (update_status_v1 1 1 "Resolved" sampleModNullRepState) 2 ≠
      some (some 20) :=
  ⟨rfl, rfl, by decide⟩

end CommunityWatch

namespace CommunityWatch

/-- C6: the duplicate detector fails soft.  For every description and
every non-empty candidate list, if the external classifier call raises
(`Except.error`) or its output cannot be parsed as JSON (the injected
parser returns `none` on the cleaned response), `find_duplicate_issue`
returns `{'is_duplicate': False}` rather than propagating the error; as
a total function of the injected capabilities it never raises to its
caller. -/
theorem find_duplicate_fail_soft
    (cm : String → List ExistingIssue → Except Unit String)
    (pj : String → Option DupResult) (d : String) (xs : List ExistingIssue)
    (hne : xs ≠ [])
    (hfail : (∃ e, cm d xs = Except.error e) ∨
      (∀ t, cm d xs = Except.ok t → pj (cleanResponse t) = none)) :
    find_duplicate_issue cm pj d xs = notDuplicate := by
  have hne2 : xs.isEmpty = false := by
    cases xs with
    | nil => exact absurd rfl hne
    | cons a l => rfl
  rcases hfail with ⟨e, he⟩ | hpj
  · simp [find_duplicate_issue, hne2, he]
  · cases hcm : cm d xs with
    | error e => simp [find_duplicate_issue, hne2, hcm]
    | ok t => simp [find_duplicate_issue, hne2, hcm, hpj t hcm]

/-- C6 witness: a concrete classifier call that raises — with a parser
that would even report a duplicate — still yields
`{'is_duplicate': False}` on a one-candidate list. -/
theorem find_duplicate_fail_soft_witness :
    find_duplicate_issue (fun _ _ => Except.error ())
      (fun _ => some (DupResult.mk true (some 1)))
      "water main break" [ExistingIssue.mk 1 "Pothole" "existing pothole"] =
      notDuplicate :=
  find_duplicate_fail_soft _ _ _ _ (by decide) (Or.inl ⟨(), rfl⟩)

/-- C7: a duplicate check whose geo-bounded candidate list is empty
answers `{'is_duplicate': False}` and the external classifier capability
is never invoked on that run: the result is identical for every injected
classifier/parser pair.  The same short-circuit exists inside
`find_duplicate_issue` for an empty candidate list (before the `try`
block). -/
theorem check_duplicates_empty_candidates
    (cm cm2 : String → List ExistingIssue → Except Unit String)
    (pj pj2 : String → Option DupResult)
    (lat lng : ℚ) (d : String) (s : AppState)
    (h : geoFilter lat lng (1/1000) s.issues = []) :
    check_duplicates cm pj lat lng d s = (notDuplicate, none) ∧
    check_duplicates cm pj lat lng d s = check_duplicates cm2 pj2 lat lng d s ∧
    find_duplicate_issue cm pj d [] = notDuplicate ∧
    find_duplicate_issue cm pj d [] = find_duplicate_issue cm2 pj2 d [] := by
  have h1 : check_duplicates cm pj lat lng d s = (notDuplicate, none) := by
    rw [check_duplicates, h]
    rfl
  have h2 : check_duplicates cm2 pj2 lat lng d s = (notDuplicate, none) := by
    rw [check_duplicates, h]
    rfl
  exact ⟨h1, by rw [h1, h2], rfl, rfl⟩

/-- C7 witness: on an empty store, a duplicate check with a classifier
that would answer "duplicate" still reports no duplicate. -/
theorem check_duplicates_empty_candidates_witness :
    check_duplicates (fun _ _ => Except.ok "irrelevant")
        (fun _ => some (DupResult.mk true (some 1)))
        10 20 "pothole" (AppState.mk [] [] []) = (notDuplicate, none) :=
  (check_duplicates_empty_candidates _ (fun _ _ => Except.error ()) _
    (fun _ => none) 10 20 "pothole" (AppState.mk [] [] []) rfl).1

/-- C8: the similarity ranker silently excludes every candidate whose
embedding is NULL/absent: a ranked result always has a truthy embedding,
and no error is raised (the ranker is total).  Moreover
`Issue.generate_and_set_embedding` is a no-op in this iteration and
`report_issue` never assigns the embedding column, so a text query over
issues created through `report_issue` returns an empty ranked list. -/
theorem searchRank_excludes_missing_embedding :
    (∀ (sim : List ℚ → ℚ) (issues : List Issue) (i : Issue),
        (issues.map Issue.id).Nodup → i ∈ searchRank sim issues →
        embTruthy i.embedding = true) ∧
    (∀ i : Issue, Issue.generate_and_set_embedding i = i) ∧
    (∀ (id : Nat) (c d : String) (lat lng : ℚ) (rid : Nat),
        (report_issue_row id c d lat lng rid).embedding = none) ∧
    (∀ (sim : List ℚ → ℚ) (issues : List Issue),
        (∀ i ∈ issues, i.embedding = none) → searchRank sim issues = []) := by
  refine ⟨?ex, fun i => rfl, fun id c d lat lng rid => rfl, ?empty⟩
  case ex =>
    intro sim issues i hnd hm
    rw [searchRank, List.filterMap_map] at hm
    obtain ⟨pr, hpr, hfind⟩ := List.mem_filterMap.mp hm
    have hrel : pr ∈ relevantPairs sim issues :=
      (sortDesc_perm (relevantPairs sim issues)).mem_iff.mp hpr
    have hfind2 : issues.find? (fun j => j.id == pr.1) = some i := hfind
    exact (searchRank_elem sim issues hnd pr i hrel hfind2).1
  case empty =>
    intro sim issues hall
    rw [searchRank]
    have hfil : issues.filter (fun i => embTruthy i.embedding) = [] := by
      rw [List.filter_eq_nil_iff]
      intro a ha
      rw [hall a ha]
      simp [embTruthy]
    rw [relevantPairs, simPairs, hfil]
    rfl

/-- C8 witness: a ranked candidate has a truthy embedding; the no-op
embedding setter and the NULL embedding of a reported row, concretely;
and a store populated only through `report_issue` ranks to the empty
list for any query scoring. -/
theorem searchRank_excludes_missing_embedding_witness :
    embTruthy (Issue.mk 1 "Pothole" "a pothole" 10 20 "Reported" (some 0)
        (some [1]) 1).embedding = true ∧
    Issue.generate_and_set_embedding
        (Issue.mk 1 "Pothole" "a pothole" 10 20 "Reported" (some 0) none 1) =
      Issue.mk 1 "Pothole" "a pothole" 10 20 "Reported" (some 0) none 1 ∧
    (report_issue_row 1 "Pothole" "a pothole" 10 20 1).embedding = none ∧
    searchRank (fun v => v.headD 0)
      [report_issue_row 1 "Pothole" "a pothole" 10 20 1,
       report_issue_row 2 "Litter" "overflowing bin" 11 21 1] = [] := by
  refine ⟨?_,
    searchRank_excludes_missing_embedding.2.1 _,
    searchRank_excludes_missing_embedding.2.2.1 1 "Pothole" "a pothole" 10 20 1,
    searchRank_excludes_missing_embedding.2.2.2 _ _ (by decide)⟩
  exact searchRank_excludes_missing_embedding.1 (fun v => v.headD 0)
    [Issue.mk 1 "Pothole" "a pothole" 10 20 "Reported" (some 0) (some [1]) 1]
    (Issue.mk 1 "Pothole" "a pothole" 10 20 "Reported" (some 0) (some [1]) 1)
    (by decide)
    (by norm_num [searchRank, relevantPairs, simPairs, sortDesc, descInsert,
      embTruthy, threshold, List.find?, List.filterMap_cons, List.filterMap_nil])

/-- C9: the cosine-similarity computation is unguarded against the
degenerate input.  An issue whose embedding is the zero vector passes
the `if issue.embedding` candidate test (a non-empty list is truthy), so
a similarity IS computed for it, yet the divisor of
`cosine_similarity` — `np.linalg.norm(a) * np.linalg.norm(b)`, i.e.
`sqrt (norm2 a) * sqrt (norm2 b)` — is zero there: the division is
undefined (NaN in the source's float semantics), and the code neither
excludes zero vectors nor substitutes a deterministic 0. -/
theorem cosine_zero_divisor_unguarded :
    ∃ (i : Issue) (q : List ℚ),
      embTruthy i.embedding = true ∧
      (∀ sim : List ℚ → ℚ, simPairs sim [i] = [(i.id, sim (i.embedding.getD []))]) ∧
      q ≠ [] ∧
      norm2 (i.embedding.getD []) = 0 ∧
      Real.sqrt ((norm2 (i.embedding.getD []) : ℚ) : ℝ) *
        Real.sqrt ((norm2 q : ℚ) : ℝ) = 0 := by
  have h0 : norm2 [(0 : ℚ), 0] = 0 := by norm_num [norm2, dotp]
  refine ⟨Issue.mk 1 "Pothole" "a pothole" 10 20 "Reported" (some 0)
      (some [0, 0]) 1, [1, 0], rfl, fun sim => rfl, by decide, h0, ?_⟩
  show Real.sqrt ((norm2 [(0 : ℚ), 0] : ℚ) : ℝ) *
    Real.sqrt ((norm2 [(1 : ℚ), 0] : ℚ) : ℝ) = 0
  rw [h0]
  simp

end CommunityWatch
